import Mathlib

/-!
Verification of the chat-playback sequencer, visibility trigger, theme
persistence and lead-capture form logic of the nimble-website repository.

The definitions below are a shallow embedding of the JavaScript source:
  * `src/unnamed/part_000` — `messages`, `ComparisonSection` (its inline
    `useIntersectionObserver`, `startChatAnimation`, and the visibility
    `useEffect`), `HeroSection.handleContactUs`;
  * `src/src/App.js` — top-level `useIntersectionObserver`, the theme
    initialisation/persistence in `App`, `handleFormSubmit` and the
    `PlanSelectionModal` submit button.
Timers are modelled by absolute fire times (milliseconds, `Nat`); the
single-threaded event loop delivers callbacks in fire-time order.
-/

set_option autoImplicit false

namespace NimbleSite

/-- The `type` field of a chat message: `'ai'` (the agent) or `'customer'`. -/
inductive MsgType where
  | ai
  | customer
deriving DecidableEq, Repr

/-- One record of the `messages` array: `{ type, text }`. -/
structure Message where
  type : MsgType
  text : String
deriving DecidableEq, Repr

/-- The fixed chat script `messages` from `src/unnamed/part_000` lines 577-594. -/
def messages : List Message :=
  [ ⟨MsgType.ai, "Hello! How can I assist you today?"⟩,
    ⟨MsgType.customer, "How do I create a Return Request?"⟩,
    ⟨MsgType.ai, "You can create a Return in three simple steps: 1) Tap on MyOrders 2) Choose the item to be Returned 3) Enter details requested and create a return request"⟩,
    ⟨MsgType.customer, "Where should I self-ship the Returns?"⟩,
    ⟨MsgType.ai, "You can send the return to any one of the following returns processing facilities listed below. Please ensure that you specify the name of the seller you purchased the products from (You can find the seller name on your order invoice) and dispatch the package to the address listed below. Kindly do not send it to any other address as the return package would not be treated as accepted.\""⟩,
    ⟨MsgType.customer, "I have created a Return request. When will I get the refund"⟩,
    ⟨MsgType.ai, "Refund will be initiated upon successful pickup as per the Returns Policy. The refund amount is expected to reflect in the customer account within the following timelines: NEFT - 1 to 3 business days post refund initiation, Cyntra Credit - Instant, Online Refund – 7 to 10 days post refund initiation, depending on your bank partner, 'PhonePe wallet' – Instant"⟩ ]

/-- A state mutation scheduled by `startChatAnimation`, tagged with its
absolute fire time.  `showTyping t i` is the synchronous
`setTypingIndex(index)` performed when `showNextMessage` runs for an
`'ai'` message; `revealAi t i msg` is the 700 ms callback that appends the
message and performs `setTypingIndex(-1)`; `revealCustomer t i msg` is the
500 ms callback that appends a customer message. -/
inductive ChatEvent where
  | showTyping (time : Nat) (i : Nat)
  | revealAi (time : Nat) (i : Nat) (msg : Message)
  | revealCustomer (time : Nat) (i : Nat) (msg : Message)
deriving DecidableEq, Repr

/-- Fire time of a chat event. -/
def ChatEvent.time : ChatEvent → Nat
  | ChatEvent.showTyping t _ => t
  | ChatEvent.revealAi t _ _ => t
  | ChatEvent.revealCustomer t _ _ => t

/-- The timed mutation trace of `showNextMessage` (part_000 lines 632-653)
entered at absolute time `t` with closure variable `index = i`, where
`rest` is the still-unrevealed tail `script.drop i` (the source guard
`index >= messages.length` corresponds to `rest = []`, and
`messages[index]` to the head of `rest`).  For an `'ai'` message the
typing indicator is set at entry, the reveal fires 700 ms later, and the
next `showNextMessage` is scheduled 700 ms after that; for a customer
message the reveal fires after 500 ms and the next call 700 ms after
that. -/
def showNextMessage : List Message → Nat → Nat → List ChatEvent
  | [], _, _ => []
  | msg :: more, i, t =>
    match msg.type with
    | MsgType.ai =>
        ChatEvent.showTyping t i :: ChatEvent.revealAi (t + 700) i msg ::
          showNextMessage more (i + 1) (t + 700 + 700)
    | MsgType.customer =>
        ChatEvent.revealCustomer (t + 500) i msg ::
          showNextMessage more (i + 1) (t + 500 + 700)

/-- The full uncancelled timed trace of `startChatAnimation` invoked at
absolute time `t0`: the initial `setTimeout(showNextMessage, 300)` makes
the first `showNextMessage` run at `t0 + 300` with `index = 0`. -/
def chatTrace (script : List Message) (t0 : Nat) : List ChatEvent :=
  showNextMessage script 0 (t0 + 300)

/-- The playback state of `ComparisonSection`: the `visibleMessages` and
`typingIndex` React states (part_000 lines 597-598); `typingIndex = -1`
means no typing indicator. -/
structure PlayState where
  visibleMessages : List Message
  typingIndex : Int
deriving DecidableEq, Repr

/-- Playback state at mount / at the reset performed by the activation
callback (`setVisibleMessages([]); setTypingIndex(-1)`). -/
def initPlayState : PlayState := ⟨[], -1⟩

/-- Effect of one delivered chat callback on the playback state, mirroring
the `setTypingIndex` / `setVisibleMessages(prev => [...prev, msg])` calls
of `showNextMessage`. -/
def applyEvent (s : PlayState) : ChatEvent → PlayState
  | ChatEvent.showTyping _ i => { s with typingIndex := (i : Int) }
  | ChatEvent.revealAi _ _ msg =>
      { visibleMessages := s.visibleMessages ++ [msg], typingIndex := -1 }
  | ChatEvent.revealCustomer _ _ msg =>
      { s with visibleMessages := s.visibleMessages ++ [msg] }

/-- Playback state after delivering a list of chat events in order,
starting from the freshly reset state. -/
def stateAfter (evs : List ChatEvent) : PlayState :=
  evs.foldl applyEvent initPlayState

/-- Modelled from the spec: total duration one script entry occupies in the
spec's transition rule of §4.2 — an agent step is 700 ms of typing plus a
700 ms gap before advancing, a customer step is a 500 ms wait plus a
700 ms gap before advancing. -/
def stepDur (m : Message) : Nat :=
  match m.type with
  | MsgType.ai => 700 + 700
  | MsgType.customer => 500 + 700

/-- Modelled from the spec: the absolute time at which the sequencer turns
to index `i`, per the spec's rules — the initial 300 ms delay plus the
durations of all earlier steps. -/
def arrivalTime (script : List Message) (t0 i : Nat) : Nat :=
  t0 + 300 + ((script.take i).map stepDur).sum

/-- Modelled from the spec: the timed events the spec's §4.2 transition
rule prescribes for index `i` — for an agent message the typing indicator
at the arrival time and the reveal 700 ms later, for a customer message
the reveal 500 ms after the arrival time. -/
def eventsAt (script : List Message) (t0 i : Nat) : List ChatEvent :=
  match script[i]? with
  | none => []
  | some m =>
    match m.type with
    | MsgType.ai =>
        [ChatEvent.showTyping (arrivalTime script t0 i) i,
         ChatEvent.revealAi (arrivalTime script t0 i + 700) i m]
    | MsgType.customer =>
        [ChatEvent.revealCustomer (arrivalTime script t0 i + 500) i m]

/-- Modelled from the spec: the complete timed trace the spec's transition
rules prescribe — the per-index events, in index order. -/
def claimTrace (script : List Message) (t0 : Nat) : List ChatEvent :=
  ((List.range script.length).map (eventsAt script t0)).flatten

/-! ### The host visibility effect of `ComparisonSection`

The `useEffect` at part_000 lines 663-676 runs on every change of
`comparisonVisible`.  Its cleanup clears the pending 1000 ms settle timer;
its body, on a rise with `hasBeenVisibleRef.current` still false, sets the
flag and schedules the activation (which resets the playback state and
calls `startChatAnimation`) 1000 ms later; on a fall with the flag set it
resets the flag.  The cancel closure returned by `startChatAnimation` is
discarded by the source (line 670), so activations are never cancelled. -/

/-- State of the mounted `ComparisonSection` host: the
`hasBeenVisibleRef` flag, the fire time of the pending settle timer (if
any), and the times at which `startChatAnimation` has run. -/
structure HostState where
  hasBeenVisible : Bool
  pendingSettle : Option Nat
  activations : List Nat
deriving DecidableEq, Repr

/-- Host state at mount. -/
def initHostState : HostState := ⟨false, none, []⟩

/-- Deliver the pending settle timer if its fire time has passed by time
`t`: the timer callback resets the playback state and invokes
`startChatAnimation`, recorded as an activation at the fire time. -/
def deliverSettle (t : Nat) (s : HostState) : HostState :=
  match s.pendingSettle with
  | some f =>
      if f ≤ t then
        { s with pendingSettle := none, activations := s.activations ++ [f] }
      else s
  | none => s

/-- One run of the visibility `useEffect` at time `t` with the new value
`v` of `comparisonVisible`: first any settle timer that fired before `t`
is delivered, then the previous run's cleanup (`clearTimeout(timeout)`)
discards a still-pending settle timer, then the effect body runs. -/
def visibilityEffect (t : Nat) (v : Bool) (s : HostState) : HostState :=
  let s1 := deliverSettle t s
  let s2 := { s1 with pendingSettle := none }
  if v && !s2.hasBeenVisible then
    { s2 with hasBeenVisible := true, pendingSettle := some (t + 1000) }
  else if !v && s2.hasBeenVisible then
    { s2 with hasBeenVisible := false }
  else s2

/-- Host state after a timed sequence of `comparisonVisible` changes. -/
def runHost (ts : List (Nat × Bool)) : HostState :=
  ts.foldl (fun s tv => visibilityEffect tv.1 tv.2 s) initHostState

/-- Unmount at time `u`: a settle timer that fired before `u` has been
delivered; the effect cleanup then clears whatever is still pending. -/
def unmountFlush (u : Nat) (s : HostState) : HostState :=
  { deliverSettle u s with pendingSettle := none }

/-- The times at which `startChatAnimation` ran, for a host that saw the
visibility changes `ts` and unmounted (or was left alone) at time `u`. -/
def activationsAt (ts : List (Nat × Bool)) (u : Nat) : List Nat :=
  (unmountFlush u (runHost ts)).activations

/-- Number of false-to-true rises of the `hasBeenVisibleRef` flag over a
sequence of visibility changes, starting from flag value `flag`. -/
def riseCount : Bool → List (Nat × Bool) → Nat
  | _, [] => 0
  | flag, (_, v) :: rest =>
    if v && !flag then riseCount true rest + 1
    else if !v && flag then riseCount false rest
    else riseCount flag rest

/-! ### The two `useIntersectionObserver` variants -/

/-- State of the top-level `useIntersectionObserver` hook (App.js lines
7-35 and part_000 lines 5-33): the `isVisible` React state and whether
the `IntersectionObserver` is still connected. -/
structure ObserverAState where
  isVisible : Bool
  connected : Bool
deriving DecidableEq, Repr

/-- Hook state when the observer is first attached. -/
def initObserverA : ObserverAState := ⟨false, true⟩

/-- Delivery of one intersection event with `entry.isIntersecting =
inter`: the browser invokes the callback only while the observer is
connected; on an intersecting entry the callback sets `isVisible` to true
and disconnects the observer. -/
def observerAStep (s : ObserverAState) (inter : Bool) : ObserverAState :=
  if s.connected then
    if inter then ⟨true, false⟩ else s
  else s

/-- Hook state after a sequence of intersection events. -/
def observerARun (events : List Bool) : ObserverAState :=
  events.foldl observerAStep initObserverA

/-- State of the inline `useIntersectionObserver` of `ComparisonSection`
(part_000 lines 602-618): the latest stored `entry`, reduced to its
`isIntersecting` flag (`none` before any callback).  Its callback is
`([entry]) => setEntry(entry)` — it stores every entry and never
disconnects on intersection. -/
def observerBStep (_ : Option Bool) (inter : Bool) : Option Bool :=
  some inter

/-- Stored entry after a sequence of intersection events, from the initial
`useState(null)`. -/
def observerBRun (events : List Bool) : Option Bool :=
  events.foldl observerBStep none

/-- The value the inline hook returns: `entry?.isIntersecting || false`. -/
def observerBVisible (e : Option Bool) : Bool :=
  e.getD false

/-! ### Lead-capture form (`App.js` `handleFormSubmit` and
`PlanSelectionModal`) -/

/-- The `formData` React state of `App` (App.js lines 48-53). -/
structure LeadFormData where
  name : String
  email : String
  mobile : String
  plan : String
deriving DecidableEq, Repr

/-- The form-related React state of `App`. -/
structure LeadFormState where
  formData : LeadFormData
  selectedPlan : Option String
  isSubmitting : Bool
  submitSuccess : String
deriving DecidableEq, Repr

/-- Outcome of the `fetch` issued by `handleFormSubmit`: an HTTP 2xx
response (`response.ok`), a non-2xx response, or a transport error
(rejected promise). -/
inductive FetchOutcome where
  | ok
  | httpError
  | transportError
deriving DecidableEq, Repr

/-- Synchronous part of `handleFormSubmit` (App.js lines 82-95): set
`isSubmitting` true, clear `submitSuccess`, and issue the request (the
request body is built from the current `formData`). -/
def handleFormSubmitStart (s : LeadFormState) : LeadFormState :=
  { s with isSubmitting := true, submitSuccess := "" }

/-- Resolution of the `fetch` (App.js lines 96-110): the `.then` branch on
`response.ok` stores the success string and clears the form and the
selected plan, the non-ok branch stores the failed-submit string, the
`.catch` branch stores the error string; `.finally` always clears
`isSubmitting`. -/
def handleFormSubmitResolve (s : LeadFormState) : FetchOutcome → LeadFormState
  | FetchOutcome.ok =>
      { s with submitSuccess := "Thank you! Your request has been submitted.",
               formData := ⟨"", "", "", ""⟩,
               selectedPlan := none,
               isSubmitting := false }
  | FetchOutcome.httpError =>
      { s with submitSuccess := "Failed to submit. Please try again.",
               isSubmitting := false }
  | FetchOutcome.transportError =>
      { s with submitSuccess := "An error occurred. Please try again later.",
               isSubmitting := false }

/-- A click on the modal's submit button (App.js lines 739-758): the
button carries `disabled={isSubmitting}`, so while a request is in flight
the click is a no-op; otherwise the form's `onSubmit` runs
`handleFormSubmit`.  The boolean reports whether a request was issued. -/
def submitButtonClick (s : LeadFormState) : LeadFormState × Bool :=
  if s.isSubmitting then (s, false) else (handleFormSubmitStart s, true)

/-- The modal's success-style test `submitSuccess.startsWith('Thank')`,
embedded as the corresponding test on the character sequence of the
string. -/
def startsWithThank (s : String) : Bool :=
  "Thank".data.isPrefixOf s.data

/-- The status block `PlanSelectionModal` renders (App.js lines 665-672):
shown when `submitSuccess` is nonempty, with success styling exactly when
the string starts with `"Thank"`.  Returns the message and the
success-style flag. -/
def displayedStatus (s : LeadFormState) : Option (String × Bool) :=
  if s.submitSuccess = "" then none
  else some (s.submitSuccess, startsWithThank s.submitSuccess)

/-! ### Theme persistence (`App.js` lines 40-43 and 58-66) -/

/-- The `useState` initializer of `isDarkMode`: `localStorage.getItem`
returns the stored string or null, and the mode is dark exactly when the
stored value is the string `"dark"`. -/
def initDarkMode (saved : Option String) : Bool :=
  saved = some ("dark")

/-- The string the theme `useEffect` writes to `localStorage` for a given
mode. -/
def persistTheme (isDark : Bool) : String :=
  if isDark then ("dark") else ("light")

/-- The dark-mode state of `App` together with the value currently stored
under the `theme` key. -/
structure ThemeState where
  isDark : Bool
  storedTheme : Option String
deriving DecidableEq, Repr

/-- Mount of `App` with `saved` stored under the `theme` key: the lazy
`useState` initializer performs the single startup read, and the theme
`useEffect` runs once after mount and writes the corresponding string. -/
def themeMount (saved : Option String) : ThemeState :=
  ⟨initDarkMode saved, some (persistTheme (initDarkMode saved))⟩

/-- One press of the dark-mode toggle: `setIsDarkMode(prev => !prev)`,
after which the theme `useEffect` re-runs and writes the new value. -/
def toggleDarkMode (s : ThemeState) : ThemeState :=
  ⟨!s.isDark, some (persistTheme (!s.isDark))⟩

/-! ### `HeroSection.handleContactUs` (part_000 lines 177-208) -/

/-- The hero section's React state relevant to `handleContactUs`. -/
structure HeroState where
  email : String
  status : String
  isLoading : Bool
deriving DecidableEq, Repr

/-- Synchronous part of `handleContactUs`: on an empty `email` the guard
`if (!email)` sets the prompt status and returns; otherwise `isLoading`
is set and the request is issued.  The boolean reports whether a request
was issued. -/
def handleContactUs (s : HeroState) : HeroState × Bool :=
  if s.email = "" then
    ({ s with status := "Please enter your email address." }, false)
  else
    ({ s with isLoading := true }, true)

/-! ### Auxiliary predicates and sample data -/

/-- The playback-state invariant: the revealed list is a take of the
script (strictly shorter while the run is live), and the typing index,
when set, equals the number of revealed messages and points at an agent
message of the script. -/
def playInv (script : List Message) (live : Prop) (s : PlayState) : Prop :=
  s.visibleMessages = script.take s.visibleMessages.length ∧
  (live → s.visibleMessages.length < script.length) ∧
  (s.typingIndex ≠ -1 →
    s.typingIndex = (s.visibleMessages.length : Int) ∧
    (script.drop s.visibleMessages.length).head?.map Message.type = some MsgType.ai)

/-- Bookkeeping for the host machine: performed activations plus the
pending settle timer, an upper bound on how many activations can still be
produced. -/
def hostMeasure (s : HostState) : Nat :=
  s.activations.length + (if s.pendingSettle.isSome then 1 else 0)

/-- A filled-in lead form, used to instantiate universally quantified
statements. -/
def sampleForm : LeadFormState :=
  ⟨⟨"Ada", "ada@example.com", "5550100", "Starter"⟩, some ("Starter"), false, ""⟩

/-! ## Helper lemmas -/

lemma foldl_showNextMessage_visible (rest : List Message) :
    ∀ (s : PlayState) (i t : Nat),
      (List.foldl applyEvent s (showNextMessage rest i t)).visibleMessages
        = s.visibleMessages ++ rest := by
  induction rest with
  | nil => intro s i t; simp [showNextMessage]
  | cons m more ih =>
    intro s i t
    obtain ⟨ty, tx⟩ := m
    cases ty <;> simp [showNextMessage, applyEvent, ih]

lemma toggle_stored_matches (st : ThemeState) :
    (toggleDarkMode st).storedTheme
      = some (if (toggleDarkMode st).isDark then ("dark") else ("light")) := by
  simp [toggleDarkMode, persistTheme]

lemma observerA_visible_mono (evs : List Bool) :
    ∀ s : ObserverAState, s.isVisible = true →
      (evs.foldl observerAStep s).isVisible = true := by
  induction evs with
  | nil => intro s h; simpa using h
  | cons b rest ih =>
    intro s h
    rw [List.foldl_cons]
    refine ih _ ?_
    unfold observerAStep
    split
    · split
      · rfl
      · exact h
    · exact h

lemma observerA_visible_disconnected (evs : List Bool) :
    ∀ s : ObserverAState, (s.isVisible = true → s.connected = false) →
      (evs.foldl observerAStep s).isVisible = true →
      (evs.foldl observerAStep s).connected = false := by
  induction evs with
  | nil => intro s h; simpa using h
  | cons b rest ih =>
    intro s h
    rw [List.foldl_cons]
    refine ih _ ?_
    unfold observerAStep
    split
    · split
      · intro
        rfl
      · exact h
    · exact h

lemma observerB_tracks_last (evs : List Bool) :
    ∀ e : Option Bool,
      observerBVisible (evs.foldl observerBStep e)
        = evs.getLast?.getD (observerBVisible e) := by
  induction evs with
  | nil => intro e; simp
  | cons b rest ih =>
    intro e
    rw [List.foldl_cons, ih (observerBStep e b)]
    cases rest with
    | nil => simp [observerBStep, observerBVisible]
    | cons c cs =>
      have hs : ((c :: cs).getLast?).isSome := by simp
      obtain ⟨x, hx⟩ := Option.isSome_iff_exists.mp hs
      simp [List.getLast?_cons_cons, hx]

lemma hostMeasure_deliverSettle (t : Nat) (s : HostState) :
    hostMeasure (deliverSettle t s) = hostMeasure s := by
  rcases hp : s.pendingSettle with _ | f
  · simp [deliverSettle, hp]
  · by_cases hf : f ≤ t
    · simp [deliverSettle, hostMeasure, hp, hf]
    · simp [deliverSettle, hp, hf]

lemma deliverSettle_flag (t : Nat) (s : HostState) :
    (deliverSettle t s).hasBeenVisible = s.hasBeenVisible := by
  rcases hp : s.pendingSettle with _ | f
  · simp [deliverSettle, hp]
  · by_cases hf : f ≤ t
    · simp [deliverSettle, hp, hf]
    · simp [deliverSettle, hp, hf]

lemma visibilityEffect_eq (t : Nat) (v : Bool) (s : HostState) :
    visibilityEffect t v s
      = if v && !s.hasBeenVisible then
          { hasBeenVisible := true, pendingSettle := some (t + 1000),
            activations := (deliverSettle t s).activations }
        else if !v && s.hasBeenVisible then
          { hasBeenVisible := false, pendingSettle := none,
            activations := (deliverSettle t s).activations }
        else
          { hasBeenVisible := s.hasBeenVisible, pendingSettle := none,
            activations := (deliverSettle t s).activations } := by
  have hdf := deliverSettle_flag t s
  cases h1 : (v && !s.hasBeenVisible) with
  | true => simp [visibilityEffect, hdf, h1]
  | false =>
    cases h2 : (!v && s.hasBeenVisible) with
    | true => simp [visibilityEffect, hdf, h1, h2]
    | false => simp [visibilityEffect, hdf, h1, h2]

lemma riseCount_cons (flag : Bool) (t : Nat) (v : Bool)
    (rest : List (Nat × Bool)) :
    riseCount flag ((t, v) :: rest)
      = if v && !flag then riseCount true rest + 1
        else if !v && flag then riseCount false rest
        else riseCount flag rest := rfl

lemma hostMeasure_effect (t : Nat) (v : Bool) (s : HostState) :
    hostMeasure (visibilityEffect t v s)
      ≤ hostMeasure s + (if v && !s.hasBeenVisible then 1 else 0) := by
  have hd := hostMeasure_deliverSettle t s
  rw [visibilityEffect_eq]
  cases h1 : (v && !s.hasBeenVisible) with
  | true =>
    simp [h1, hostMeasure] at hd ⊢
    omega
  | false =>
    cases h2 : (!v && s.hasBeenVisible) with
    | true =>
      simp [h1, h2, hostMeasure] at hd ⊢
      omega
    | false =>
      simp [h1, h2, hostMeasure] at hd ⊢
      omega

lemma effect_flag (t : Nat) (v : Bool) (s : HostState) :
    (visibilityEffect t v s).hasBeenVisible
      = (if v && !s.hasBeenVisible then true
         else if !v && s.hasBeenVisible then false else s.hasBeenVisible) := by
  rw [visibilityEffect_eq]
  cases h1 : (v && !s.hasBeenVisible) with
  | true => simp [h1]
  | false =>
    cases h2 : (!v && s.hasBeenVisible) with
    | true => simp [h1, h2]
    | false => simp [h1, h2]

lemma runHost_measure (ts : List (Nat × Bool)) :
    ∀ s : HostState,
      hostMeasure (ts.foldl (fun s tv => visibilityEffect tv.1 tv.2 s) s)
        ≤ hostMeasure s + riseCount s.hasBeenVisible ts := by
  induction ts with
  | nil => intro s; simp [riseCount]
  | cons tv rest ih =>
    intro s
    obtain ⟨t, v⟩ := tv
    rw [List.foldl_cons]
    refine le_trans (ih (visibilityEffect t v s)) ?_
    have hm := hostMeasure_effect t v s
    have hf := effect_flag t v s
    rw [riseCount_cons, hf]
    cases h1 : (v && !s.hasBeenVisible) with
    | true =>
      simp [h1] at hm ⊢
      omega
    | false =>
      cases h2 : (!v && s.hasBeenVisible) with
      | true =>
        simp [h1, h2] at hm ⊢
        omega
      | false =>
        simp [h1, h2] at hm ⊢
        omega

lemma activations_le_measure (u : Nat) (s : HostState) :
    (unmountFlush u s).activations.length ≤ hostMeasure s := by
  have hd := hostMeasure_deliverSettle u s
  unfold unmountFlush
  unfold hostMeasure at hd
  have hgoal : ({ deliverSettle u s with pendingSettle := none }).activations
      = (deliverSettle u s).activations := rfl
  rw [hgoal]
  cases h1 : (deliverSettle u s).pendingSettle.isSome <;>
    cases h2 : s.pendingSettle.isSome <;>
      simp [h1, h2] at hd <;>
        unfold hostMeasure <;> simp [h2] <;> omega

lemma showNextMessage_claim (rest : List Message) :
    ∀ (pre : List Message) (t0 t : Nat),
      t = t0 + 300 + (pre.map stepDur).sum →
      showNextMessage rest pre.length t
        = ((List.range' pre.length rest.length).map
            (eventsAt (pre ++ rest) t0)).flatten := by
  induction rest with
  | nil => intro pre t0 t ht; simp [showNextMessage]
  | cons m more ih =>
    intro pre t0 t ht
    have hget : (pre ++ m :: more)[pre.length]? = some m := by
      rw [List.getElem?_append_right (Nat.le_refl _)]
      simp
    have harr : arrivalTime (pre ++ m :: more) t0 pre.length = t := by
      unfold arrivalTime
      rw [List.take_left]
      omega
    obtain ⟨ty, tx⟩ := m
    cases ty with
    | ai =>
      have ih2 := ih (pre ++ [⟨MsgType.ai, tx⟩]) t0 (t + 700 + 700) (by
        simp [stepDur]
        omega)
      simp only [List.length_append, List.length_cons, List.length_nil,
        Nat.zero_add, List.append_assoc, List.singleton_append] at ih2
      simp only [showNextMessage, List.length_cons, List.range'_succ,
        List.map_cons, List.flatten_cons, eventsAt, hget, harr]
      rw [ih2]
      rfl
    | customer =>
      have ih2 := ih (pre ++ [⟨MsgType.customer, tx⟩]) t0 (t + 500 + 700) (by
        simp [stepDur]
        omega)
      simp only [List.length_append, List.length_cons, List.length_nil,
        Nat.zero_add, List.append_assoc, List.singleton_append] at ih2
      simp only [showNextMessage, List.length_cons, List.range'_succ,
        List.map_cons, List.flatten_cons, eventsAt, hget, harr]
      rw [ih2]
      rfl

lemma playback_invariant_aux (rest : List Message) :
    ∀ (pre : List Message) (t : Nat) (p q : List ChatEvent),
      p ++ q = showNextMessage rest pre.length t →
      playInv (pre ++ rest) (q ≠ []) (List.foldl applyEvent ⟨pre, -1⟩ p) := by
  induction rest with
  | nil =>
    intro pre t p q h
    simp only [showNextMessage] at h
    obtain ⟨hp, hq⟩ := List.append_eq_nil.mp h
    subst hp
    subst hq
    refine ⟨?_, ?_, ?_⟩
    · simp
    · intro h'
      exact absurd rfl h'
    · intro h'
      exact absurd rfl h'
  | cons m more ih =>
    intro pre t p q h
    obtain ⟨ty, tx⟩ := m
    cases ty with
    | ai =>
      simp only [showNextMessage] at h
      rcases p with _ | ⟨a, _ | ⟨b, p2⟩⟩
      · simp only [List.nil_append] at h
        subst h
        refine ⟨?_, ?_, ?_⟩
        · exact (List.take_left pre _).symm
        · intro _
          simp
        · intro h'
          exact absurd rfl h'
      · simp only [List.cons_append, List.nil_append, List.cons.injEq] at h
        obtain ⟨ha, hq⟩ := h
        subst ha
        subst hq
        refine ⟨?_, ?_, ?_⟩
        · exact (List.take_left pre _).symm
        · intro _
          simp [applyEvent]
        · intro _
          refine ⟨rfl, ?_⟩
          show ((pre ++ ⟨MsgType.ai, tx⟩ :: more).drop pre.length).head?.map
              Message.type = some MsgType.ai
          rw [List.drop_left]
          rfl
      · simp only [List.cons_append, List.cons.injEq] at h
        obtain ⟨ha, hb, hpq⟩ := h
        subst ha
        subst hb
        have ih2 := ih (pre ++ [⟨MsgType.ai, tx⟩]) (t + 700 + 700) p2 q
          (by simpa using hpq)
        simpa [applyEvent] using ih2
    | customer =>
      simp only [showNextMessage] at h
      rcases p with _ | ⟨a, p2⟩
      · simp only [List.nil_append] at h
        subst h
        refine ⟨?_, ?_, ?_⟩
        · exact (List.take_left pre _).symm
        · intro _
          simp
        · intro h'
          exact absurd rfl h'
      · simp only [List.cons_append, List.cons.injEq] at h
        obtain ⟨ha, hpq⟩ := h
        subst ha
        have ih2 := ih (pre ++ [⟨MsgType.customer, tx⟩]) (t + 500 + 700) p2 q
          (by simpa using hpq)
        simpa [applyEvent] using ih2

/-! ## Claim theorems -/

/-- C5: for every script `S`, an uninterrupted playback run of
`startChatAnimation` reveals exactly `S` — the final `visibleMessages`
list equals the script, in order, with no duplicates and no omissions. -/
theorem playback_completes_to_full_script (script : List Message) (t0 : Nat) :
    (stateAfter (chatTrace script t0)).visibleMessages = script := by
  simpa [stateAfter, chatTrace, initPlayState] using
    foldl_showNextMessage_visible script initPlayState 0 (t0 + 300)

/-- C8: the theme flag is read from `localStorage` once at startup by the
lazy `useState` initializer, with an absent or non-"dark" value treated as
light; and after the mount effect and every toggle the stored value is
exactly "dark" when dark mode is on and exactly "light" when it is off. -/
theorem theme_flag_roundtrip :
    initDarkMode none = false ∧
    (∀ s : String, s ≠ "dark" → initDarkMode (some s) = false) ∧
    initDarkMode (some ("dark")) = true ∧
    (∀ (saved : Option String) (n : Nat),
      (toggleDarkMode^[n] (themeMount saved)).storedTheme
        = some (if (toggleDarkMode^[n] (themeMount saved)).isDark
                then ("dark") else ("light"))) := by
  refine ⟨by decide, ?_, by decide, ?_⟩
  · intro s hs
    simp [initDarkMode, hs]
  · intro saved n
    cases n with
    | zero => simp [themeMount, persistTheme, initDarkMode]
    | succ m =>
      rw [Function.iterate_succ_apply']
      exact toggle_stored_matches _

/-- C8 witness: instantiation at a stored "light" value and two toggles
from an absent value. -/
theorem theme_flag_roundtrip_witness :
    initDarkMode (some ("light")) = false ∧
    (toggleDarkMode^[2] (themeMount none)).storedTheme
      = some (if (toggleDarkMode^[2] (themeMount none)).isDark
              then ("dark") else ("light")) :=
  ⟨theme_flag_roundtrip.2.1 "light" (by decide),
   theme_flag_roundtrip.2.2.2 none 2⟩

/-- C9: when the hero section's email field is empty, `handleContactUs`
sets the prompt status and returns: no request is issued and `isLoading`
is untouched. -/
theorem empty_email_early_return (s : HeroState) (h : s.email = "") :
    handleContactUs s
      = ({ s with status := "Please enter your email address." }, false) ∧
    (handleContactUs s).1.isLoading = s.isLoading ∧
    (handleContactUs s).2 = false := by
  refine ⟨?_, ?_, ?_⟩ <;> simp [handleContactUs, h]

/-- C9 witness: instantiation at an empty email with `isLoading`
initially true. -/
theorem empty_email_early_return_witness :
    handleContactUs ⟨"", "old", true⟩
      = ({ (⟨"", "old", true⟩ : HeroState) with
            status := "Please enter your email address." }, false) ∧
    (handleContactUs ⟨"", "old", true⟩).1.isLoading
      = (⟨"", "old", true⟩ : HeroState).isLoading ∧
    (handleContactUs ⟨"", "old", true⟩).2 = false :=
  empty_email_early_return ⟨"", "old", true⟩ rfl

/-- C10: `handleFormSubmit` clears `formData` and `selectedPlan` only on
an HTTP 2xx response; on a non-2xx response or a transport error both are
left unchanged. -/
theorem form_preserved_on_failed_submission (s : LeadFormState)
    (o : FetchOutcome) (h : o ≠ FetchOutcome.ok) :
    (handleFormSubmitResolve s o).formData = s.formData ∧
    (handleFormSubmitResolve s o).selectedPlan = s.selectedPlan ∧
    (handleFormSubmitResolve s FetchOutcome.ok).formData = ⟨"", "", "", ""⟩ ∧
    (handleFormSubmitResolve s FetchOutcome.ok).selectedPlan = none := by
  cases o with
  | ok => exact absurd rfl h
  | httpError => exact ⟨rfl, rfl, rfl, rfl⟩
  | transportError => exact ⟨rfl, rfl, rfl, rfl⟩

/-- C10 witness: instantiation at a filled form and a transport error. -/
theorem form_preserved_on_failed_submission_witness :
    (handleFormSubmitResolve sampleForm FetchOutcome.transportError).formData
      = sampleForm.formData ∧
    (handleFormSubmitResolve sampleForm FetchOutcome.transportError).selectedPlan
      = sampleForm.selectedPlan ∧
    (handleFormSubmitResolve sampleForm FetchOutcome.ok).formData
      = ⟨"", "", "", ""⟩ ∧
    (handleFormSubmitResolve sampleForm FetchOutcome.ok).selectedPlan = none :=
  form_preserved_on_failed_submission sampleForm FetchOutcome.transportError
    (by decide)

/-- C7: a lead-form submission whose request fails (non-2xx or transport
error) displays the failure status string (failure styling), leaves
`isSubmitting` false after resolution, and a re-click while a request is
in flight is a no-op because the submit button is disabled while
`isSubmitting` is true. -/
theorem failed_submission_resolution (s : LeadFormState) (o : FetchOutcome)
    (h : o ≠ FetchOutcome.ok) :
    (handleFormSubmitResolve s o).isSubmitting = false ∧
    displayedStatus (handleFormSubmitResolve s o)
      = some ((handleFormSubmitResolve s o).submitSuccess, false) ∧
    submitButtonClick (handleFormSubmitStart s) = (handleFormSubmitStart s, false) := by
  have hclick : submitButtonClick (handleFormSubmitStart s)
      = (handleFormSubmitStart s, false) := by
    simp [submitButtonClick, handleFormSubmitStart]
  cases o with
  | ok => exact absurd rfl h
  | httpError =>
    refine ⟨rfl, ?_, hclick⟩
    simp only [handleFormSubmitResolve, displayedStatus]
    decide
  | transportError =>
    refine ⟨rfl, ?_, hclick⟩
    simp only [handleFormSubmitResolve, displayedStatus]
    decide

/-- C7 witness: instantiation at a filled form and a non-2xx response. -/
theorem failed_submission_resolution_witness :
    (handleFormSubmitResolve sampleForm FetchOutcome.httpError).isSubmitting
      = false ∧
    displayedStatus (handleFormSubmitResolve sampleForm FetchOutcome.httpError)
      = some ((handleFormSubmitResolve sampleForm FetchOutcome.httpError).submitSuccess,
              false) ∧
    submitButtonClick (handleFormSubmitStart sampleForm)
      = (handleFormSubmitStart sampleForm, false) :=
  failed_submission_resolution sampleForm FetchOutcome.httpError (by decide)

/-- C3 counterexample: for the inline watcher of `ComparisonSection`, the
returned visibility is true after an intersecting event and false again
after the element leaves the viewport — a true-to-false transition, which
the claim rules out for both variants. -/
theorem inline_observer_visible_falls :
    observerBVisible (observerBRun [true]) = true ∧
    observerBVisible (observerBRun [true, false]) = false := by
  decide

/-- C3 amended: the top-level `useIntersectionObserver` variant never
loses visibility once gained (so it transitions false-to-true at most
once) and disconnects its watcher on first intersection; the inline
`ComparisonSection` variant instead returns the `isIntersecting` flag of
the most recent entry (false before any event), which can fall back to
false when the element leaves the viewport. -/
theorem observer_variants_visibility :
    (∀ evs more : List Bool, (observerARun evs).isVisible = true →
      (observerARun (evs ++ more)).isVisible = true) ∧
    (∀ evs : List Bool, (observerARun evs).isVisible = true →
      (observerARun evs).connected = false) ∧
    (∀ evs : List Bool,
      observerBVisible (observerBRun evs) = evs.getLast?.getD false) := by
  refine ⟨?_, ?_, ?_⟩
  · intro evs more h
    unfold observerARun at *
    rw [List.foldl_append]
    exact observerA_visible_mono more _ h
  · intro evs h
    exact observerA_visible_disconnected evs initObserverA
      (by intro hv; simp [initObserverA] at hv) h
  · intro evs
    simpa [observerBVisible] using observerB_tracks_last evs none

/-- C3 amended witness: instantiation at concrete event sequences. -/
theorem observer_variants_visibility_witness :
    (observerARun ([true] ++ [false])).isVisible = true ∧
    (observerARun [true]).connected = false ∧
    observerBVisible (observerBRun [true, false])
      = ([true, false] : List Bool).getLast?.getD false :=
  ⟨observer_variants_visibility.1 [true] [false] (by decide),
   observer_variants_visibility.2.1 [true] (by decide),
   observer_variants_visibility.2.2 [true, false]⟩

/-- C1 counterexample: with host visibility true at t=0, false at t=2000
and true again at t=3000, the sequencer is activated twice (at t=1000 and
t=4000): the `hasBeenVisibleRef` guard is reset by the effect's
else-branch when visibility goes false, so a second activation occurs and
the script is replayed. -/
theorem chat_replays_after_visibility_retoggle :
    activationsAt [(0, true), (2000, false), (3000, true)] 5000
      = [1000, 4000] := by
  decide

/-- C1 amended: the sequencer is activated at most once per false-to-true
rise of the `hasBeenVisibleRef` flag — in particular, when visibility
becomes true once and never changes again, exactly one activation occurs,
1000 ms after the rise.  The flag is reset by the effect whenever
visibility becomes false, so a later false-to-true transition schedules a
new activation and replays the sequence (it is not a once-per-mount
guard). -/
theorem chat_activation_per_visibility_rise :
    (∀ t u : Nat, t + 1000 ≤ u → activationsAt [(t, true)] u = [t + 1000]) ∧
    (∀ (ts : List (Nat × Bool)) (u : Nat),
      (activationsAt ts u).length ≤ riseCount false ts) := by
  constructor
  · intro t u h
    simp [activationsAt, runHost, unmountFlush, visibilityEffect,
      deliverSettle, initHostState, h]
  · intro ts u
    refine le_trans (activations_le_measure u (runHost ts)) ?_
    have h2 := runHost_measure ts initHostState
    simpa [hostMeasure, initHostState, runHost] using h2

/-- C1 amended witness: instantiation at a single rise at t=0 observed
until t=1500, and at the retoggle sequence. -/
theorem chat_activation_per_visibility_rise_witness :
    activationsAt [(0, true)] 1500 = [0 + 1000] ∧
    (activationsAt [(0, true), (2000, false), (3000, true)] 5000).length
      ≤ riseCount false [(0, true), (2000, false), (3000, true)] :=
  ⟨chat_activation_per_visibility_rise.1 0 1500 (by decide),
   chat_activation_per_visibility_rise.2 [(0, true), (2000, false), (3000, true)] 5000⟩

/-- C2: evaluation at the failing input — host visible at t=0, unmounted
at t=1200.  The activation ran at t=1000, every chained callback of the
chat sequence fires strictly after the unmount (the cancel closure
returned by `startChatAnimation` is discarded at part_000 line 670 and
the effect cleanup clears only the settle timer), and those callbacks
mutate the playback state all the way to the fully revealed script. -/
theorem unmount_mid_sequence_callbacks_survive :
    activationsAt [(0, true)] 1200 = [1000] ∧
    (∀ e ∈ chatTrace messages 1000, 1200 < e.time) ∧
    (chatTrace messages 1000).length = 11 ∧
    (stateAfter (chatTrace messages 1000)).visibleMessages = messages := by
  refine ⟨by decide, by decide, by decide, ?_⟩
  simpa [stateAfter, chatTrace, initPlayState] using
    foldl_showNextMessage_visible messages initPlayState 0 (1000 + 300)

/-- C4: for every script and starting time, the nested-timeout chain of
`startChatAnimation` produces exactly the timed steps the spec
prescribes: the first `showNextMessage` runs 300 ms after the start; at
each index the typing indicator is shown at the arrival time of an agent
message and the message revealed (indicator cleared) 700 ms later with a
further 700 ms before the next index, while a customer message is
revealed 500 ms after its arrival time with 700 ms before the next
index. -/
theorem chat_timing_matches_spec_delays (script : List Message) (t0 : Nat) :
    chatTrace script t0 = claimTrace script t0 := by
  have h := showNextMessage_claim script [] t0 (t0 + 300) (by simp)
  simpa [chatTrace, claimTrace, List.range_eq_range'] using h

/-- C6 counterexample: after the first three delivered callbacks of a run
on the bundled script (two messages revealed), the next unrevealed
message `messages[2]` is an agent message not yet appended, yet
`typingIndex` is `-1` — so "the typing index is set if and only if the
next unrevealed message is an agent message not yet appended" fails in
the reverse direction during the inter-message delay. -/
theorem typing_indicator_iff_fails :
    (chatTrace messages 0).take 3 ++ (chatTrace messages 0).drop 3
        = chatTrace messages 0 ∧
    (stateAfter ((chatTrace messages 0).take 3)).typingIndex = -1 ∧
    (stateAfter ((chatTrace messages 0).take 3)).visibleMessages.length = 2 ∧
    (messages.getD 2 ⟨MsgType.customer, ""⟩).type = MsgType.ai ∧
    (messages.getD 2 ⟨MsgType.customer, ""⟩)
        ∉ (stateAfter ((chatTrace messages 0).take 3)).visibleMessages := by
  refine ⟨List.take_append_drop 3 _, ?_, ?_, ?_, ?_⟩ <;> decide

/-- C6 amended: at every reachable state of a playback run the revealed
list is a take of the script (a strict one while events remain
undelivered), and the typing index, when set, equals the number of
revealed messages and points at an agent message of the script that, being
at position `len(revealed)`, has not yet been appended.  The converse
direction of the claim's "if and only if" does not hold: the index is
`-1` during the initial and inter-message delays even when the next
unrevealed message is an agent message. -/
theorem playback_take_and_typing_invariant (script : List Message) (t0 : Nat)
    (p q : List ChatEvent) (h : p ++ q = chatTrace script t0) :
    playInv script (q ≠ []) (stateAfter p) := by
  have haux := playback_invariant_aux script [] (t0 + 300) p q
    (by simpa [chatTrace] using h)
  simpa [stateAfter, initPlayState] using haux

/-- C6 amended witness: instantiation after two delivered callbacks of a
run on the bundled script. -/
theorem playback_take_and_typing_invariant_witness :
    playInv messages ((chatTrace messages 0).drop 2 ≠ [])
      (stateAfter ((chatTrace messages 0).take 2)) :=
  playback_take_and_typing_invariant messages 0 _ _ (List.take_append_drop 2 _)

end NimbleSite
